import Mathlib

/-!
# Verification of the URL-shortener resolution / caching subsystem

Shallow embedding of the service's core handlers, translated from the
Python source:

* `utils/short_code.py`   — custom-code validation (`is_valid_custom_code`)
* `routers/redirect.py`   — `redirect_to_url` (cache-then-store resolution,
  expiry check, cache population/eviction, click scheduling)
* `routers/links.py`      — `create_link` (custom-code path and the
  3-attempt generated-code path), `update_link`, `get_click_stats`

Timestamps are modelled as `Nat` (seconds since an epoch); `datetime`
comparisons in the source become `Nat` comparisons, and midnight of the
current UTC day becomes flooring to a multiple of 86400.  The Redis cache
is an association list from string keys to typed payloads (the JSON
serialisation is modelled away; the payload shape follows the source).
The random generator and the external profanity filter are parameters
(`gen : Nat → String`, `flagged : String → Bool`).  Cache-backend failure
is a boolean parameter `cacheFails`: when it is set, every Redis call
raises, and — exactly as in the source, which wraps no Redis call in a
`try`/`except` — the exception escapes the handler; this is modelled by
the dedicated `cacheException` result constructors.
-/

namespace UrlShortener

/-- A row of the `links` table (`db_models.Link`). -/
structure Link where
  id : Nat
  user_id : Nat
  short_code : String
  original_url : String
  custom_code : Bool
  expires_at : Option Nat
  created_at : Nat
  updated_at : Nat
  deriving Repr, DecidableEq

/-- A row of the `clicks` table (`db_models.Click`). -/
structure Click where
  id : Nat
  link_id : Nat
  clicked_at : Nat
  referrer : Option String
  user_agent : Option String
  ip_address : Option String
  deriving Repr, DecidableEq

/-- The relational store: the `links` and `clicks` tables plus the
store-assigned id counter. -/
structure Store where
  links : List Link
  clicks : List Click
  nextLinkId : Nat
  deriving Repr, DecidableEq

/-- The cached link payload written by the source as JSON
`id` / `url` / `expires_at`. -/
structure CachePayload where
  id : Nat
  url : String
  expires_at : Option Nat
  deriving Repr, DecidableEq

/-- One entry of a `top_referrers` list: referrer value and click count. -/
structure RefCount where
  referrer : String
  count : Nat
  deriving Repr, DecidableEq

/-- The aggregated statistics object (`ClickStats`). -/
structure Stats where
  total_clicks : Nat
  clicks_today : Nat
  clicks_this_week : Nat
  clicks_this_month : Nat
  top_referrers : List RefCount
  deriving Repr, DecidableEq

/-- A cached value: either a link payload (under a `link:` key) or a
stats object (under a `stats:user_` key). -/
inductive CacheVal where
  | link (p : CachePayload)
  | stats (s : Stats)
  deriving Repr, DecidableEq

/-- A cache slot: the stored value and its TTL (`none` for plain `SET`,
`some t` for `SETEX t`). -/
structure CacheEntry where
  val : CacheVal
  ttl : Option Nat
  deriving Repr, DecidableEq

/-- The Redis keyspace, as an association list (first binding wins). -/
abbrev Cache := List (String × CacheEntry)

/-- `redis_client.get key`. -/
def cacheGet (c : Cache) (k : String) : Option CacheEntry :=
  (c.find? (fun kv => kv.1 == k)).map (fun kv => kv.2)

/-- Store an entry under a key, replacing any previous binding. -/
def cacheStore (c : Cache) (k : String) (e : CacheEntry) : Cache :=
  (k, e) :: c.filter (fun kv => kv.1 != k)

/-- `redis_client.set key v` (no TTL). -/
def cacheSet (c : Cache) (k : String) (v : CacheVal) : Cache :=
  cacheStore c k ⟨v, none⟩

/-- `redis_client.setex key ttl v`. -/
def cacheSetex (c : Cache) (k : String) (ttl : Nat) (v : CacheVal) : Cache :=
  cacheStore c k ⟨v, some ttl⟩

/-- `redis_client.delete key`. -/
def cacheDelete (c : Cache) (k : String) : Cache :=
  c.filter (fun kv => kv.1 != k)

/-- The cache key `link:{short_code}` used for resolution entries. -/
def linkKey (code : String) : String := "link:" ++ code

/-- The cache key `stats:user_{owner_id}` used for stats entries. -/
def statsKey (uid : Nat) : String := "stats:user_" ++ toString uid

/-- `db_session.query(Link).filter(Link.short_code == code).first()`. -/
def findByCode (links : List Link) (code : String) : Option Link :=
  links.find? (fun l => l.short_code == code)

/-- `db_session.query(Link).filter(Link.id == i).first()`. -/
def findById (links : List Link) (i : Nat) : Option Link :=
  links.find? (fun l => l.id == i)

/-! ## Code generator (`utils/short_code.py`) -/

/-- `is_valid_custom_code` from `utils/short_code.py`.  `flagged` is the
external profanity filter (`better_profanity.contains_profanity`);
alphanumericity of a character models Python's `str.isalnum` (both the
source check and the spec use the same notion, here `Char.isAlphanum`). -/
def is_valid_custom_code (flagged : String → Bool) (code : String) : Bool :=
  if code = "" then false
  else if code.length < 3 || 10 < code.length then false
  else if !(code.data.all Char.isAlphanum) then false
  else if flagged code then false
  else true

/-! ## Link resolution (`routers/redirect.py`, `redirect_to_url`) -/

/-- Outcome of a resolution request.  `cacheException` is the unhandled
Redis exception escaping the handler (the source has no `try`/`except`
around its Redis calls). -/
inductive RedirectResult where
  | redirect (url : String)
  | notFound
  | expired
  | cacheException
  deriving Repr, DecidableEq

/-- The HTTP response the framework renders for a handler outcome:
status code, `Location` header, and the JSON error `detail`. -/
structure HttpResponse where
  status : Nat
  location : Option String
  detail : Option String
  deriving Repr, DecidableEq

/-- HTTP rendering of a resolution outcome: `RedirectResponse(302)`,
`HTTPException(404, detail)`, and the framework's 500 for an
unhandled exception. -/
def renderRedirect : RedirectResult → HttpResponse
  | .redirect u => ⟨302, some u, none⟩
  | .notFound => ⟨404, none, some "Link not found"⟩
  | .expired => ⟨404, none, some "Link has expired"⟩
  | .cacheException => ⟨500, none, none⟩

/-- `redirect_to_url` from `routers/redirect.py`.  Returns the outcome,
the cache after the request, and the list of link ids for which a click
recording was scheduled (`background_tasks.add_task(record_click, ...)`).
`now` is the single clock read of the request; `cacheFails` set means the
Redis backend raises on every call.  A non-link value under a `link:` key
cannot arise (the two key prefixes are disjoint), so the cache-hit match
only considers link payloads. -/
def redirect_to_url (cacheFails : Bool) (now : Nat) (short_code : String)
    (st : Store) (cache : Cache) : RedirectResult × Cache × List Nat :=
  if cacheFails then (.cacheException, cache, [])
  else
    let key := linkKey short_code
    match cacheGet cache key with
    | some ⟨.link p, _⟩ =>
      match p.expires_at with
      | some e =>
        if e < now then (.expired, cacheDelete cache key, [])
        else (.redirect p.url, cache, [p.id])
      | none => (.redirect p.url, cache, [p.id])
    | _ =>
      match findByCode st.links short_code with
      | none => (.notFound, cache, [])
      | some l =>
        match l.expires_at with
        | some e =>
          if e < now then (.expired, cache, [])
          else (.redirect l.original_url,
                cacheSet cache key (.link ⟨l.id, l.original_url, l.expires_at⟩),
                [l.id])
        | none =>
          (.redirect l.original_url,
           cacheSet cache key (.link ⟨l.id, l.original_url, l.expires_at⟩),
           [l.id])

/-! ## Link creation (`routers/links.py`, `create_link`) -/

/-- The request body `LinkCreate`; `custom_code`, when present, passed
pydantic's `min_length=3, max_length=10` field validation (see
`linkCreateWellFormed`). -/
structure LinkCreateReq where
  original_url : String
  custom_code : Option String
  expires_at : Option Nat
  deriving Repr, DecidableEq

/-- Pydantic field validation on `LinkCreate.custom_code`
(`Field(None, min_length=3, max_length=10)`): any request reaching the
handler satisfies this. -/
def linkCreateWellFormed (d : LinkCreateReq) : Prop :=
  ∀ c, d.custom_code = some c → 3 ≤ c.length ∧ c.length ≤ 10

/-- Outcome of the short-code selection phase (source lines 29-68). -/
inductive CodeSel where
  | invalid
  | conflict
  | exhausted
  | ok (code : String)
  deriving Repr, DecidableEq

/-- The generated-code retry loop:
`for _ in range(n)` starting at attempt index `i`; each iteration draws
`gen i` and keeps it when no stored link has that `short_code`. -/
def genAttempts (gen : Nat → String) (links : List Link) :
    Nat → Nat → Option String
  | 0, _ => none
  | n + 1, i =>
    let candidate := gen i
    if (findByCode links candidate).isSome then genAttempts gen links n (i + 1)
    else some candidate

/-- `max_attempts = 3` loop of `create_link`: the first non-colliding of
`gen 0`, `gen 1`, `gen 2`, else `none`. -/
def pickCode (gen : Nat → String) (links : List Link) : Option String :=
  genAttempts gen links 3 0

/-- The generated-code branch of `create_link`. -/
def selectGenerated (gen : Nat → String) (links : List Link) : CodeSel :=
  match pickCode gen links with
  | none => .exhausted
  | some code => .ok code

/-- Short-code selection of `create_link` (source lines 29-68).
Python's `if link_data.custom_code:` is truthiness: the empty string
falls through to the generated path (unreachable past pydantic, but
modelled faithfully). -/
def selectCode (flagged : String → Bool) (gen : Nat → String)
    (d : LinkCreateReq) (links : List Link) : CodeSel :=
  match d.custom_code with
  | some c =>
    if c = "" then selectGenerated gen links
    else if !(is_valid_custom_code flagged c) then .invalid
    else if (findByCode links c).isSome then .conflict
    else .ok c
  | none => selectGenerated gen links

/-- The `Link` row inserted by `create_link`: the store assigns the id
and the timestamps; `custom_code` is `link_data.custom_code is not None`. -/
def mkNewLink (uid : Nat) (code : String) (d : LinkCreateReq) (now i : Nat) :
    Link :=
  { id := i, user_id := uid, short_code := code,
    original_url := d.original_url, custom_code := d.custom_code.isSome,
    expires_at := d.expires_at, created_at := now, updated_at := now }

/-- `db_session.add` + `commit`: append the row, advance the id counter. -/
def insertLink (st : Store) (l : Link) : Store :=
  { st with links := st.links ++ [l], nextLinkId := st.nextLinkId + 1 }

/-- Outcome of a create request.  `cacheException l` is the unhandled
Redis exception raised by the cache write *after* the row `l` was
committed. -/
inductive CreateResult where
  | created (l : Link)
  | invalidCode
  | codeConflict
  | generationExhausted
  | cacheException (l : Link)
  deriving Repr, DecidableEq

/-- HTTP status the framework sends for each create outcome. -/
def createStatus : CreateResult → Nat
  | .created _ => 201
  | .invalidCode => 400
  | .codeConflict => 409
  | .generationExhausted => 500
  | .cacheException _ => 500

/-- Insert-and-cache tail of `create_link` (source lines 70-90): commit
the new row, then write the `link:{code}` cache entry. -/
def finishCreate (now uid : Nat) (d : LinkCreateReq) (st : Store)
    (cacheFails : Bool) (cache : Cache) (code : String) :
    CreateResult × Store × Cache :=
  let l := mkNewLink uid code d now st.nextLinkId
  let st' := insertLink st l
  if cacheFails then (.cacheException l, st', cache)
  else (.created l, st',
        cacheSet cache (linkKey code) (.link ⟨l.id, l.original_url, l.expires_at⟩))

/-- `create_link` from `routers/links.py`. -/
def create_link (flagged : String → Bool) (gen : Nat → String) (now uid : Nat)
    (d : LinkCreateReq) (st : Store) (cacheFails : Bool) (cache : Cache) :
    CreateResult × Store × Cache :=
  match selectCode flagged gen d st.links with
  | .invalid => (.invalidCode, st, cache)
  | .conflict => (.codeConflict, st, cache)
  | .exhausted => (.generationExhausted, st, cache)
  | .ok code => finishCreate now uid d st cacheFails cache code

/-! ## Link update (`routers/links.py`, `update_link`) -/

/-- The request body `LinkUpdate`: optional new destination URL and
optional new expiry (a `none` field means "not provided"). -/
structure LinkUpdateReq where
  original_url : Option String
  expires_at : Option Nat
  deriving Repr, DecidableEq

/-- The two `if ... is not None` blocks of `update_link`: the possibly
modified row and the `updated` flag. -/
def applyUpdate (l : Link) (d : LinkUpdateReq) : Link × Bool :=
  let s1 := match d.original_url with
    | some u => ({ l with original_url := u }, true)
    | none => (l, false)
  match d.expires_at with
  | some e => ({ s1.1 with expires_at := some e }, true)
  | none => s1

/-- `commit` of an updated row: replace the row with the given id. -/
def replaceById (links : List Link) (i : Nat) (l' : Link) : List Link :=
  links.map (fun l => if l.id == i then l' else l)

/-- The committed row of a field-bearing update: the modified fields
plus `updated_at = datetime.now()`. -/
def updatedRow (link : Link) (d : LinkUpdateReq) (now : Nat) : Link :=
  { (applyUpdate link d).1 with updated_at := now }

/-- Outcome of an update request; `ok` carries the returned record,
`cacheException l` is the unhandled Redis exception after the commit. -/
inductive UpdateResult where
  | ok (l : Link)
  | notFound
  | forbidden
  | cacheException (l : Link)
  deriving Repr, DecidableEq

/-- `update_link` from `routers/links.py`.  On the no-op path (neither
field provided) the handler returns before touching `updated_at`, the
store, or Redis — so even a failing cache backend is never reached. -/
def update_link (now link_id uid : Nat) (d : LinkUpdateReq) (st : Store)
    (cacheFails : Bool) (cache : Cache) : UpdateResult × Store × Cache :=
  match findById st.links link_id with
  | none => (.notFound, st, cache)
  | some link =>
    if link.user_id ≠ uid then (.forbidden, st, cache)
    else
      let s := applyUpdate link d
      if !s.2 then (.ok link, st, cache)
      else
        let l2 := { s.1 with updated_at := now }
        let st' := { st with links := replaceById st.links link_id l2 }
        if cacheFails then (.cacheException l2, st', cache)
        else (.ok l2, st',
              cacheSet cache (linkKey l2.short_code)
                (.link ⟨l2.id, l2.original_url, l2.expires_at⟩))

/-! ## Click statistics (`routers/links.py`, `get_click_stats`) -/

/-- Midnight of the current UTC day:
`now.replace(hour=0, minute=0, second=0, microsecond=0)`. -/
def todayStart (now : Nat) : Nat := 86400 * (now / 86400)

/-- `today_start - timedelta(days=7)`. -/
def weekStart (now : Nat) : Nat := todayStart now - 7 * 86400

/-- `today_start - timedelta(days=30)`. -/
def monthStart (now : Nat) : Nat := todayStart now - 30 * 86400

/-- Ids of the links owned by `uid`. -/
def ownerLinkIds (st : Store) (uid : Nat) : List Nat :=
  (st.links.filter (fun l => l.user_id == uid)).map (fun l => l.id)

/-- The `user_clicks()` base query: `Click` joined to `Link`, filtered on
`Link.user_id == uid`, in store row order. -/
def ownerClicks (st : Store) (uid : Nat) : List Click :=
  st.clicks.filter (fun c => (ownerLinkIds st uid).contains c.link_id)

/-- First-occurrence deduplication, accumulating seen values. -/
def dedupAux : List String → List String → List String
  | [], _ => []
  | x :: xs, seen =>
    if seen.contains x then dedupAux xs seen
    else x :: dedupAux xs (x :: seen)

/-- Distinct values of a list, in first-occurrence order. -/
def dedupFirst (l : List String) : List String := dedupAux l []

/-- `GROUP BY referrer` with `COUNT(id)`, over the non-null referrers of
the given clicks, groups in first-appearance order. -/
def groupReferrers (cs : List Click) : List RefCount :=
  let refs := cs.filterMap (fun c => c.referrer)
  (dedupFirst refs).map (fun r => ⟨r, refs.countP (fun x => x == r)⟩)

/-- The `ORDER BY count DESC` relation.  The query has no secondary sort
key, so equal counts are left in group order (stable sort). -/
def countGE (a b : RefCount) : Prop := b.count ≤ a.count

instance : DecidableRel countGE := fun a b => Nat.decLe b.count a.count

instance : IsTotal RefCount countGE := ⟨fun a b => Nat.le_total b.count a.count⟩

instance : IsTrans RefCount countGE := ⟨fun _ _ _ h1 h2 => Nat.le_trans h2 h1⟩

/-- The referrer query of `get_click_stats`: group non-null referrers of
the owner's clicks, order by count descending (no tie-break), take 5. -/
def topReferrers (cs : List Click) : List RefCount :=
  (List.insertionSort countGE (groupReferrers cs)).take 5

/-- Modelled from the spec: the ordering the spec prescribes for the
top-referrer list — count descending, ties broken by referrer value —
which the source's query (no secondary sort key) does not implement. -/
def specRefOrder (a b : RefCount) : Prop :=
  b.count < a.count ∨
    (a.count = b.count ∧ (a.referrer.data < b.referrer.data ∨ a.referrer = b.referrer))

instance : DecidableRel specRefOrder := fun a b => by
  unfold specRefOrder; infer_instance

/-- Modelled from the spec: top-5 referrers by count, ties broken by
referrer value. -/
def topReferrersSpec (cs : List Click) : List RefCount :=
  (List.insertionSort specRefOrder (groupReferrers cs)).take 5

/-- The stats object computed on a cache miss (source lines 132-181). -/
def computeStats (now uid : Nat) (st : Store) : Stats :=
  let cs := ownerClicks st uid
  { total_clicks := cs.length
    clicks_today := (cs.filter (fun c => todayStart now ≤ c.clicked_at)).length
    clicks_this_week := (cs.filter (fun c => weekStart now ≤ c.clicked_at)).length
    clicks_this_month := (cs.filter (fun c => monthStart now ≤ c.clicked_at)).length
    top_referrers := topReferrers cs }

/-- Outcome of a stats request. -/
inductive StatsResult where
  | ok (s : Stats)
  | cacheException
  deriving Repr, DecidableEq

/-- `get_click_stats` from `routers/links.py`: per-owner cache probe; on
hit return the cached object verbatim, on miss compute and `SETEX 300`. -/
def get_click_stats (now uid : Nat) (st : Store) (cacheFails : Bool)
    (cache : Cache) : StatsResult × Cache :=
  if cacheFails then (.cacheException, cache)
  else
    match cacheGet cache (statsKey uid) with
    | some ⟨.stats s, _⟩ => (.ok s, cache)
    | _ =>
      let s := computeStats now uid st
      (.ok s, cacheSetex cache (statsKey uid) 300 (.stats s))

/-! ## Helper lemmas -/

theorem cacheGet_cacheStore_self (c : Cache) (k : String) (e : CacheEntry) :
    cacheGet (cacheStore c k e) k = some e := by
  simp [cacheGet, cacheStore, List.find?]

theorem cacheGet_set_self (c : Cache) (k : String) (v : CacheVal) :
    cacheGet (cacheSet c k v) k = some ⟨v, none⟩ :=
  cacheGet_cacheStore_self c k ⟨v, none⟩

theorem cacheGet_setex_self (c : Cache) (k : String) (ttl : Nat) (v : CacheVal) :
    cacheGet (cacheSetex c k ttl v) k = some ⟨v, some ttl⟩ :=
  cacheGet_cacheStore_self c k ⟨v, some ttl⟩

theorem cacheGet_delete_self (c : Cache) (k : String) :
    cacheGet (cacheDelete c k) k = none := by
  unfold cacheGet cacheDelete
  have h : (c.filter (fun kv => kv.1 != k)).find? (fun kv => kv.1 == k) = none := by
    rw [List.find?_eq_none]
    intro x hx
    have hne := (List.mem_filter.1 hx).2
    simp only [bne_iff_ne, ne_eq] at hne
    simp [hne]
  rw [h]
  rfl

theorem str_ne_empty_of_three_le {c : String} (h : 3 ≤ c.length) : c ≠ "" := by
  intro he
  subst he
  simp at h

/-! ## C7 — custom-code validation -/

/-- C7: `validateCustom` accepts a code iff its length is between 3 and
10, every character is alphanumeric, and the external content filter does
not flag it; in particular the empty string is rejected. -/
theorem claim7_validate_custom_iff (flagged : String → Bool) (code : String) :
    (is_valid_custom_code flagged code = true ↔
      (3 ≤ code.length ∧ code.length ≤ 10 ∧
        code.data.all Char.isAlphanum = true ∧ flagged code = false)) ∧
    is_valid_custom_code flagged "" = false := by
  constructor
  · unfold is_valid_custom_code
    split_ifs with h1 h2 h3 h4
    all_goals simp_all
    all_goals omega
  · rfl

/-! ## C10 — no-op update is a frame -/

/-- C10: an update request carrying neither `original_url` nor
`expires_at` returns the stored record unchanged and performs no store
commit and no cache write or delete (whatever the state of the cache
backend). -/
theorem claim10_noop_update_frame (now link_id uid : Nat) (st : Store)
    (cacheFails : Bool) (cache : Cache) (link : Link)
    (hfind : findById st.links link_id = some link)
    (howner : link.user_id = uid) :
    update_link now link_id uid ⟨none, none⟩ st cacheFails cache
      = (.ok link, st, cache) := by
  unfold update_link
  rw [hfind]
  simp [howner, applyUpdate]

theorem claim10_noop_update_frame_witness :
    update_link 55 1 7 ⟨none, none⟩
        ⟨[⟨1, 7, "abc", "http://a", false, none, 3, 4⟩], [], 2⟩ true
        [("link:abc", ⟨.link ⟨1, "http://a", none⟩, none⟩)]
      = (.ok ⟨1, 7, "abc", "http://a", false, none, 3, 4⟩,
         ⟨[⟨1, 7, "abc", "http://a", false, none, 3, 4⟩], [], 2⟩,
         [("link:abc", ⟨.link ⟨1, "http://a", none⟩, none⟩)]) :=
  claim10_noop_update_frame 55 1 7
    ⟨[⟨1, 7, "abc", "http://a", false, none, 3, 4⟩], [], 2⟩ true
    [("link:abc", ⟨.link ⟨1, "http://a", none⟩, none⟩)]
    ⟨1, 7, "abc", "http://a", false, none, 3, 4⟩ (by decide) rfl

/-! ## C1 — expired links resolve to 404 with no click, on both paths -/

/-- C1: resolving a code whose record has `expires_at` strictly in the
past yields the expired outcome (rendered as HTTP 404) and schedules no
click recording; on the cache-hit path the entry is evicted first, on the
store path the cache is left untouched (no write of the dead entry). -/
theorem claim1_expired_resolution (nowA nowB eA eB : Nat) (codeA codeB : String)
    (stA stB : Store) (cacheA cacheB : Cache) (p : CachePayload)
    (t : Option Nat) (l : Link)
    (hA : cacheGet cacheA (linkKey codeA) = some ⟨.link p, t⟩)
    (hpA : p.expires_at = some eA) (heA : eA < nowA)
    (hB : cacheGet cacheB (linkKey codeB) = none)
    (hfB : findByCode stB.links codeB = some l)
    (hlB : l.expires_at = some eB) (heB : eB < nowB) :
    redirect_to_url false nowA codeA stA cacheA
        = (.expired, cacheDelete cacheA (linkKey codeA), []) ∧
    redirect_to_url false nowB codeB stB cacheB = (.expired, cacheB, []) ∧
    (renderRedirect .expired).status = 404 := by
  refine ⟨?_, ?_, rfl⟩
  · simp [redirect_to_url, hA, hpA, heA]
  · simp [redirect_to_url, hB, hfB, hlB, heB]

theorem claim1_expired_resolution_witness :
    redirect_to_url false 10 "abc" ⟨[], [], 0⟩
        [("link:abc", ⟨.link ⟨1, "http://u", some 5⟩, none⟩)]
      = (.expired,
         cacheDelete [("link:abc", ⟨.link ⟨1, "http://u", some 5⟩, none⟩)]
           (linkKey "abc"), []) ∧
    redirect_to_url false 20 "xyz"
        ⟨[⟨2, 1, "xyz", "http://v", false, some 15, 0, 0⟩], [], 3⟩ []
      = (.expired, [], []) ∧
    (renderRedirect .expired).status = 404 :=
  claim1_expired_resolution 10 20 5 15 "abc" "xyz" ⟨[], [], 0⟩
    ⟨[⟨2, 1, "xyz", "http://v", false, some 15, 0, 0⟩], [], 3⟩
    [("link:abc", ⟨.link ⟨1, "http://u", some 5⟩, none⟩)] []
    ⟨1, "http://u", some 5⟩ none ⟨2, 1, "xyz", "http://v", false, some 15, 0, 0⟩
    (by decide) rfl (by decide) rfl (by decide) rfl (by decide)

/-! ## C3 — NotFound vs Expired responses -/

/-- C3 counterexample: against the claim that the two failure responses
are identical, a code absent from store and cache and an expired code
both yield status 404 but *different* bodies ("Link not found" vs
"Link has expired"), so a visitor can tell them apart. -/
theorem claim3_counterexample :
    (renderRedirect (redirect_to_url false 10 "zzz"
        ⟨[⟨1, 1, "old", "http://o", false, some 5, 0, 0⟩], [], 2⟩ []).1).status = 404 ∧
    (renderRedirect (redirect_to_url false 10 "old"
        ⟨[⟨1, 1, "old", "http://o", false, some 5, 0, 0⟩], [], 2⟩ []).1).status = 404 ∧
    renderRedirect (redirect_to_url false 10 "zzz"
        ⟨[⟨1, 1, "old", "http://o", false, some 5, 0, 0⟩], [], 2⟩ []).1
      ≠ renderRedirect (redirect_to_url false 10 "old"
        ⟨[⟨1, 1, "old", "http://o", false, some 5, 0, 0⟩], [], 2⟩ []).1 := by
  refine ⟨rfl, rfl, by decide⟩

/-- C3 amended: the NotFound and Expired outcomes both render as HTTP
404, but their error bodies differ — detail "Link not found" versus
"Link has expired" — so the two failure cases are distinguishable by the
response body (only the status code is shared). -/
theorem claim3_amended_distinct_bodies (now1 now2 : Nat) (c1 c2 : String)
    (st1 st2 : Store) (k1 k2 : Cache)
    (h1 : (redirect_to_url false now1 c1 st1 k1).1 = .notFound)
    (h2 : (redirect_to_url false now2 c2 st2 k2).1 = .expired) :
    renderRedirect (redirect_to_url false now1 c1 st1 k1).1
        = ⟨404, none, some "Link not found"⟩ ∧
    renderRedirect (redirect_to_url false now2 c2 st2 k2).1
        = ⟨404, none, some "Link has expired"⟩ ∧
    renderRedirect (redirect_to_url false now1 c1 st1 k1).1
        ≠ renderRedirect (redirect_to_url false now2 c2 st2 k2).1 := by
  rw [h1, h2]
  exact ⟨rfl, rfl, by decide⟩

theorem claim3_amended_distinct_bodies_witness :
    renderRedirect (redirect_to_url false 10 "zzz"
        ⟨[⟨1, 1, "old", "http://o", false, some 5, 0, 0⟩], [], 2⟩ []).1
        = ⟨404, none, some "Link not found"⟩ ∧
    renderRedirect (redirect_to_url false 10 "old"
        ⟨[⟨1, 1, "old", "http://o", false, some 5, 0, 0⟩], [], 2⟩ []).1
        = ⟨404, none, some "Link has expired"⟩ ∧
    renderRedirect (redirect_to_url false 10 "zzz"
        ⟨[⟨1, 1, "old", "http://o", false, some 5, 0, 0⟩], [], 2⟩ []).1
      ≠ renderRedirect (redirect_to_url false 10 "old"
        ⟨[⟨1, 1, "old", "http://o", false, some 5, 0, 0⟩], [], 2⟩ []).1 :=
  claim3_amended_distinct_bodies 10 10 "zzz" "old"
    ⟨[⟨1, 1, "old", "http://o", false, some 5, 0, 0⟩], [], 2⟩
    ⟨[⟨1, 1, "old", "http://o", false, some 5, 0, 0⟩], [], 2⟩ [] []
    (by decide) (by decide)

/-! ## C2 — update and the cache -/

theorem applyUpdate_preserves (l : Link) (d : LinkUpdateReq) :
    (applyUpdate l d).1.id = l.id ∧ (applyUpdate l d).1.short_code = l.short_code := by
  unfold applyUpdate
  cases d.original_url <;> cases d.expires_at <;> simp

/-- C2 counterexample: after an owner updates a link's destination URL,
the cache entry for its short code is *not* removed — the handler
rewrites it with the fresh payload, so the cache still holds an entry for
that code (the claim asserts it holds none). -/
theorem claim2_counterexample :
    cacheGet (update_link 100 1 1 ⟨some "http://new", none⟩
        ⟨[⟨1, 1, "abc", "http://old", false, none, 0, 0⟩], [], 2⟩ false []).2.2
        (linkKey "abc")
      = some ⟨.link ⟨1, "http://new", none⟩, none⟩ ∧
    cacheGet (update_link 100 1 1 ⟨some "http://new", none⟩
        ⟨[⟨1, 1, "abc", "http://old", false, none, 0, 0⟩], [], 2⟩ false []).2.2
        (linkKey "abc")
      ≠ none := by
  decide

/-- C2 amended: for every link owned by the caller, an update carrying
`original_url` or `expires_at` *rewrites* (write-through, not delete) the
cache entry keyed by the link's immutable short code with the fresh
payload of id, updated URL and updated expiry, so after a successful
update the cache holds that updated entry. -/
theorem claim2_amended_cache_rewrite (now link_id uid : Nat)
    (d : LinkUpdateReq) (st : Store) (cache : Cache) (link : Link)
    (hfind : findById st.links link_id = some link)
    (howner : link.user_id = uid)
    (hupd : (applyUpdate link d).2 = true) :
    update_link now link_id uid d st false cache
      = (.ok (updatedRow link d now),
         { st with links := replaceById st.links link_id (updatedRow link d now) },
         cacheSet cache (linkKey link.short_code)
           (.link ⟨link.id, (updatedRow link d now).original_url,
                   (updatedRow link d now).expires_at⟩)) ∧
    cacheGet (update_link now link_id uid d st false cache).2.2
        (linkKey link.short_code)
      = some ⟨.link ⟨link.id, (updatedRow link d now).original_url,
               (updatedRow link d now).expires_at⟩, none⟩ := by
  have hpres := applyUpdate_preserves link d
  have h1 : update_link now link_id uid d st false cache
      = (.ok (updatedRow link d now),
         { st with links := replaceById st.links link_id (updatedRow link d now) },
         cacheSet cache (linkKey link.short_code)
           (.link ⟨link.id, (updatedRow link d now).original_url,
                   (updatedRow link d now).expires_at⟩)) := by
    unfold update_link
    rw [hfind]
    simp [howner, hupd, hpres.1, hpres.2, updatedRow]
  refine ⟨h1, ?_⟩
  rw [h1]
  exact cacheGet_set_self _ _ _

theorem claim2_amended_cache_rewrite_witness :
    update_link 100 1 1 ⟨some "http://new", none⟩
        ⟨[⟨1, 1, "abc", "http://old", false, none, 0, 0⟩], [], 2⟩ false []
      = (.ok ⟨1, 1, "abc", "http://new", false, none, 0, 100⟩,
         ⟨[⟨1, 1, "abc", "http://new", false, none, 0, 100⟩], [], 2⟩,
         cacheSet [] (linkKey "abc") (.link ⟨1, "http://new", none⟩)) ∧
    cacheGet (update_link 100 1 1 ⟨some "http://new", none⟩
        ⟨[⟨1, 1, "abc", "http://old", false, none, 0, 0⟩], [], 2⟩ false []).2.2
        (linkKey "abc")
      = some ⟨.link ⟨1, "http://new", none⟩, none⟩ := by
  exact claim2_amended_cache_rewrite 100 1 1 ⟨some "http://new", none⟩
    ⟨[⟨1, 1, "abc", "http://old", false, none, 0, 0⟩], [], 2⟩ []
    ⟨1, 1, "abc", "http://old", false, none, 0, 0⟩ (by decide) rfl (by decide)

/-! ## Creation-path inversion lemmas -/

theorem genAttempts_free (gen : Nat → String) (links : List Link) :
    ∀ n i c, genAttempts gen links n i = some c → findByCode links c = none := by
  intro n
  induction n with
  | zero => intro i c h; simp [genAttempts] at h
  | succ m ih =>
    intro i c h
    unfold genAttempts at h
    by_cases hb : (findByCode links (gen i)).isSome
    · rw [if_pos hb] at h
      exact ih (i + 1) c h
    · rw [if_neg hb] at h
      injection h with h'
      subst h'
      exact Option.not_isSome_iff_eq_none.1 hb

theorem selectCode_ok_free (flagged : String → Bool) (gen : Nat → String)
    (d : LinkCreateReq) (links : List Link) (code : String)
    (h : selectCode flagged gen d links = .ok code) :
    findByCode links code = none := by
  have hgen : selectGenerated gen links = .ok code → findByCode links code = none := by
    intro hg
    unfold selectGenerated at hg
    cases hp : pickCode gen links with
    | none => rw [hp] at hg; exact absurd hg (by simp)
    | some c =>
      rw [hp] at hg
      injection hg with h'
      subst h'
      exact genAttempts_free gen links 3 0 c hp
  unfold selectCode at h
  split at h
  case h_1 c heq =>
    by_cases h0 : c = ""
    · rw [if_pos h0] at h
      exact hgen h
    · rw [if_neg h0] at h
      by_cases h1 : (!is_valid_custom_code flagged c) = true
      · rw [if_pos h1] at h
        exact absurd h (by simp)
      · rw [if_neg h1] at h
        by_cases h2 : (findByCode links c).isSome = true
        · rw [if_pos h2] at h
          exact absurd h (by simp)
        · rw [if_neg h2] at h
          injection h with h'
          subst h'
          exact Option.not_isSome_iff_eq_none.1 h2
  case h_2 => exact hgen h

theorem create_created_inv (flagged : String → Bool) (gen : Nat → String)
    (now uid : Nat) (d : LinkCreateReq) (st : Store) (cache : Cache)
    (l : Link) (st' : Store) (c' : Cache)
    (h : create_link flagged gen now uid d st false cache = (.created l, st', c')) :
    findByCode st.links l.short_code = none ∧
    l = mkNewLink uid l.short_code d now st.nextLinkId ∧
    st' = insertLink st l ∧
    c' = cacheSet cache (linkKey l.short_code)
           (.link ⟨l.id, l.original_url, l.expires_at⟩) := by
  unfold create_link at h
  cases hsel : selectCode flagged gen d st.links with
  | invalid => rw [hsel] at h; simp [Prod.ext_iff] at h
  | conflict => rw [hsel] at h; simp [Prod.ext_iff] at h
  | exhausted => rw [hsel] at h; simp [Prod.ext_iff] at h
  | ok code =>
    rw [hsel] at h
    unfold finishCreate at h
    simp only [Bool.false_eq_true, if_false, Prod.mk.injEq] at h
    obtain ⟨h1, h2, h3⟩ := h
    injection h1 with h1
    subst h1 h2 h3
    exact ⟨selectCode_ok_free flagged gen d st.links code hsel, rfl, rfl, rfl⟩

/-- Advancing from a working to a failing cache backend: the code path
up to the commit is cache-independent, so a creation that succeeded with
a working cache commits the same row with a failing one, but then the
uncaught Redis write error escapes the handler. -/
theorem create_link_cacheFails_shift (flagged : String → Bool)
    (gen : Nat → String) (now uid : Nat) (d : LinkCreateReq) (st : Store)
    (cache cache2 : Cache) (l : Link) (st' : Store) (c' : Cache)
    (hc : create_link flagged gen now uid d st false cache = (.created l, st', c')) :
    create_link flagged gen now uid d st true cache2 = (.cacheException l, st', cache2) := by
  unfold create_link at hc ⊢
  cases hsel : selectCode flagged gen d st.links with
  | invalid => rw [hsel] at hc; simp [Prod.ext_iff] at hc
  | conflict => rw [hsel] at hc; simp [Prod.ext_iff] at hc
  | exhausted => rw [hsel] at hc; simp [Prod.ext_iff] at hc
  | ok code =>
    rw [hsel] at hc
    unfold finishCreate at hc ⊢
    simp only [Bool.false_eq_true, if_false, Prod.mk.injEq] at hc
    obtain ⟨h1, h2, h3⟩ := hc
    injection h1 with h1
    subst h1 h2
    simp

/-! ## C9 — cache failures are not swallowed -/

/-- C9 counterexample: with the cache backend failing, resolving a code
that is present and live in the store does not fall through to the store
— the unhandled Redis error escapes and the request fails (500), while
the same request with a working cache redirects; and a creation whose
cache write fails raises after committing the row: the row is in the
store but the outcome is the escaped exception, not a created response. -/
theorem claim9_counterexample :
    (redirect_to_url true 10 "abc"
        ⟨[⟨1, 1, "abc", "http://a", false, none, 0, 0⟩], [], 2⟩ []).1
      = .cacheException ∧
    (renderRedirect .cacheException).status = 500 ∧
    (redirect_to_url false 10 "abc"
        ⟨[⟨1, 1, "abc", "http://a", false, none, 0, 0⟩], [], 2⟩ []).1
      = .redirect "http://a" ∧
    (create_link (fun _ => false) (fun _ => "abcdef") 5 1
        ⟨"http://b", none, none⟩ ⟨[], [], 0⟩ true []).1
      = .cacheException ⟨0, 1, "abcdef", "http://b", false, none, 5, 5⟩ ∧
    (create_link (fun _ => false) (fun _ => "abcdef") 5 1
        ⟨"http://b", none, none⟩ ⟨[], [], 0⟩ true []).2.1.links
      = [⟨0, 1, "abcdef", "http://b", false, none, 5, 5⟩] := by
  decide

/-- C9 amended: no Redis call is guarded, so a cache backend failure
propagates to the caller as a failure of the operation: a failing cache
read aborts resolution before the store is consulted (rendered 500, no
click scheduled), and a failing cache write aborts a creation after the
link row was committed — the row persists in the store, but the caller
gets the escaped exception instead of the created link. -/
theorem claim9_amended_propagation (now : Nat) (code : String) (st : Store)
    (cache : Cache) (flagged : String → Bool) (gen : Nat → String)
    (now2 uid : Nat) (d : LinkCreateReq) (st2 : Store) (cache2 : Cache)
    (l : Link) (st2' : Store) (c2' : Cache)
    (hc : create_link flagged gen now2 uid d st2 false cache2 = (.created l, st2', c2')) :
    redirect_to_url true now code st cache = (.cacheException, cache, []) ∧
    (renderRedirect .cacheException).status = 500 ∧
    create_link flagged gen now2 uid d st2 true cache2
      = (.cacheException l, st2', cache2) ∧
    (create_link flagged gen now2 uid d st2 true cache2).2.1 = st2' := by
  refine ⟨rfl, rfl, ?_, ?_⟩
  · exact create_link_cacheFails_shift flagged gen now2 uid d st2 cache2 cache2 l st2' c2' hc
  · rw [create_link_cacheFails_shift flagged gen now2 uid d st2 cache2 cache2 l st2' c2' hc]

theorem claim9_amended_propagation_witness :
    redirect_to_url true 10 "abc"
        ⟨[⟨1, 1, "abc", "http://a", false, none, 0, 0⟩], [], 2⟩ []
      = (.cacheException, [], []) ∧
    (renderRedirect .cacheException).status = 500 ∧
    create_link (fun _ => false) (fun _ => "abcdef") 5 1
        ⟨"http://b", none, none⟩ ⟨[], [], 0⟩ true []
      = (.cacheException ⟨0, 1, "abcdef", "http://b", false, none, 5, 5⟩,
         ⟨[⟨0, 1, "abcdef", "http://b", false, none, 5, 5⟩], [], 1⟩, []) ∧
    (create_link (fun _ => false) (fun _ => "abcdef") 5 1
        ⟨"http://b", none, none⟩ ⟨[], [], 0⟩ true []).2.1
      = ⟨[⟨0, 1, "abcdef", "http://b", false, none, 5, 5⟩], [], 1⟩ := by
  exact claim9_amended_propagation 10 "abc"
    ⟨[⟨1, 1, "abc", "http://a", false, none, 0, 0⟩], [], 2⟩ []
    (fun _ => false) (fun _ => "abcdef") 5 1 ⟨"http://b", none, none⟩
    ⟨[], [], 0⟩ []
    ⟨0, 1, "abcdef", "http://b", false, none, 5, 5⟩
    ⟨[⟨0, 1, "abcdef", "http://b", false, none, 5, 5⟩], [], 1⟩
    (cacheSet [] (linkKey "abcdef") (.link ⟨0, "http://b", none⟩))
    (by decide)

/-! ## C4 — generated-code path: 3 bounded attempts -/

/-- C4: without a custom code, creation draws at most 3 random
candidates and uses the first that does not collide with a stored
short code: if candidate `i < 3` is free and all earlier ones collide,
exactly one new row is appended with that candidate as its `short_code`;
if all 3 candidates collide, creation fails with the generation-exhausted
error (rendered 500) and the store is unchanged. -/
theorem claim4_generated_path (flagged : String → Bool)
    (genA genB : Nat → String) (nowA nowB uidA uidB : Nat)
    (urlA urlB : String) (expA expB : Option Nat) (stA stB : Store)
    (cacheA cacheB : Cache) (i : Nat)
    (hA0 : (findByCode stA.links (genA 0)).isSome = true)
    (hA1 : (findByCode stA.links (genA 1)).isSome = true)
    (hA2 : (findByCode stA.links (genA 2)).isSome = true)
    (hi : i < 3)
    (hfree : findByCode stB.links (genB i) = none)
    (hbefore : ∀ j, j < i → (findByCode stB.links (genB j)).isSome = true) :
    (create_link flagged genA nowA uidA ⟨urlA, none, expA⟩ stA false cacheA
        = (.generationExhausted, stA, cacheA) ∧
     createStatus .generationExhausted = 500) ∧
    (create_link flagged genB nowB uidB ⟨urlB, none, expB⟩ stB false cacheB
        = (.created (mkNewLink uidB (genB i) ⟨urlB, none, expB⟩ nowB stB.nextLinkId),
           insertLink stB (mkNewLink uidB (genB i) ⟨urlB, none, expB⟩ nowB stB.nextLinkId),
           cacheSet cacheB (linkKey (genB i))
             (.link ⟨stB.nextLinkId, urlB, expB⟩)) ∧
     (mkNewLink uidB (genB i) ⟨urlB, none, expB⟩ nowB stB.nextLinkId).short_code
        = genB i ∧
     (insertLink stB
        (mkNewLink uidB (genB i) ⟨urlB, none, expB⟩ nowB stB.nextLinkId)).links
        = stB.links ++
            [mkNewLink uidB (genB i) ⟨urlB, none, expB⟩ nowB stB.nextLinkId]) := by
  refine ⟨⟨?_, rfl⟩, ?_, rfl, rfl⟩
  · unfold create_link selectCode selectGenerated pickCode
    simp [genAttempts, hA0, hA1, hA2]
  · unfold create_link selectCode selectGenerated pickCode
    interval_cases i
    · simp [genAttempts, hfree, finishCreate, mkNewLink]
    · have hb0 := hbefore 0 (by omega)
      simp [genAttempts, hb0, hfree, finishCreate, mkNewLink]
    · have hb0 := hbefore 0 (by omega)
      have hb1 := hbefore 1 (by omega)
      simp [genAttempts, hb0, hb1, hfree, finishCreate, mkNewLink]

theorem claim4_generated_path_witness :
    (create_link (fun _ => false) (fun _ => "AAAAAA") 5 1
        ⟨"http://a", none, none⟩
        ⟨[⟨0, 2, "AAAAAA", "http://z", false, none, 0, 0⟩], [], 1⟩ false []
        = (.generationExhausted,
           ⟨[⟨0, 2, "AAAAAA", "http://z", false, none, 0, 0⟩], [], 1⟩, []) ∧
     createStatus .generationExhausted = 500) ∧
    (create_link (fun _ => false)
        (fun j => if j = 0 then "AAAAAA" else "BBBBBB") 5 1
        ⟨"http://a", none, none⟩
        ⟨[⟨0, 2, "AAAAAA", "http://z", false, none, 0, 0⟩], [], 1⟩ false []
        = (.created (mkNewLink 1 ((fun j => if j = 0 then "AAAAAA" else "BBBBBB") 1)
              ⟨"http://a", none, none⟩ 5 1),
           insertLink ⟨[⟨0, 2, "AAAAAA", "http://z", false, none, 0, 0⟩], [], 1⟩
             (mkNewLink 1 ((fun j => if j = 0 then "AAAAAA" else "BBBBBB") 1)
               ⟨"http://a", none, none⟩ 5 1),
           cacheSet [] (linkKey ((fun j => if j = 0 then "AAAAAA" else "BBBBBB") 1))
             (.link ⟨1, "http://a", none⟩)) ∧
     (mkNewLink 1 ((fun j => if j = 0 then "AAAAAA" else "BBBBBB") 1)
        ⟨"http://a", none, none⟩ 5 1).short_code
        = (fun j => if j = 0 then "AAAAAA" else "BBBBBB") 1 ∧
     (insertLink ⟨[⟨0, 2, "AAAAAA", "http://z", false, none, 0, 0⟩], [], 1⟩
        (mkNewLink 1 ((fun j => if j = 0 then "AAAAAA" else "BBBBBB") 1)
          ⟨"http://a", none, none⟩ 5 1)).links
        = [⟨0, 2, "AAAAAA", "http://z", false, none, 0, 0⟩] ++
            [mkNewLink 1 ((fun j => if j = 0 then "AAAAAA" else "BBBBBB") 1)
              ⟨"http://a", none, none⟩ 5 1]) := by
  exact claim4_generated_path (fun _ => false) (fun _ => "AAAAAA")
    (fun j => if j = 0 then "AAAAAA" else "BBBBBB") 5 5 1 1
    "http://a" "http://a" none none
    ⟨[⟨0, 2, "AAAAAA", "http://z", false, none, 0, 0⟩], [], 1⟩
    ⟨[⟨0, 2, "AAAAAA", "http://z", false, none, 0, 0⟩], [], 1⟩ [] [] 1
    (by decide) (by decide) (by decide) (by omega) (by decide)
    (by
      intro j hj
      have hj0 : j = 0 := by omega
      subst hj0
      decide)

/-! ## C6 — custom-code path -/

/-- C6: for a create request carrying a custom code (which pydantic
guarantees has length between 3 and 10): an invalid code fails with
InvalidCode (rendered 400) and inserts nothing; a valid code already
present in the store fails with CodeConflict (rendered 409) and inserts
nothing; otherwise the custom code is used verbatim as the new row's
short code and exactly one row is appended. -/
theorem claim6_custom_path (flagged : String → Bool) (gen : Nat → String)
    (now1 now2 now3 uid1 uid2 uid3 : Nat) (url1 url2 url3 : String)
    (exp1 exp2 exp3 : Option Nat) (c1 c2 c3 : String)
    (st1 st2 st3 : Store) (cache1 cache2 cache3 : Cache)
    (hlen1 : 3 ≤ c1.length)
    (hinv : is_valid_custom_code flagged c1 = false)
    (hlen2 : 3 ≤ c2.length)
    (hval2 : is_valid_custom_code flagged c2 = true)
    (hconf : (findByCode st2.links c2).isSome = true)
    (hlen3 : 3 ≤ c3.length)
    (hval3 : is_valid_custom_code flagged c3 = true)
    (hfree3 : findByCode st3.links c3 = none) :
    (create_link flagged gen now1 uid1 ⟨url1, some c1, exp1⟩ st1 false cache1
        = (.invalidCode, st1, cache1) ∧
     createStatus .invalidCode = 400) ∧
    (create_link flagged gen now2 uid2 ⟨url2, some c2, exp2⟩ st2 false cache2
        = (.codeConflict, st2, cache2) ∧
     createStatus .codeConflict = 409) ∧
    (create_link flagged gen now3 uid3 ⟨url3, some c3, exp3⟩ st3 false cache3
        = (.created (mkNewLink uid3 c3 ⟨url3, some c3, exp3⟩ now3 st3.nextLinkId),
           insertLink st3 (mkNewLink uid3 c3 ⟨url3, some c3, exp3⟩ now3 st3.nextLinkId),
           cacheSet cache3 (linkKey c3) (.link ⟨st3.nextLinkId, url3, exp3⟩)) ∧
     (mkNewLink uid3 c3 ⟨url3, some c3, exp3⟩ now3 st3.nextLinkId).short_code = c3 ∧
     (insertLink st3
        (mkNewLink uid3 c3 ⟨url3, some c3, exp3⟩ now3 st3.nextLinkId)).links
        = st3.links ++
            [mkNewLink uid3 c3 ⟨url3, some c3, exp3⟩ now3 st3.nextLinkId]) := by
  refine ⟨⟨?_, rfl⟩, ⟨?_, rfl⟩, ?_, rfl, rfl⟩
  · unfold create_link selectCode
    simp [str_ne_empty_of_three_le hlen1, hinv]
  · unfold create_link selectCode
    simp [str_ne_empty_of_three_le hlen2, hval2, hconf]
  · unfold create_link selectCode
    simp [str_ne_empty_of_three_le hlen3, hval3, hfree3, finishCreate, mkNewLink]

theorem claim6_custom_path_witness :
    (create_link (fun c => c == "badword") (fun _ => "GGGGGG") 5 1
        ⟨"http://a", some "ab!", none⟩ ⟨[], [], 0⟩ false []
        = (.invalidCode, ⟨[], [], 0⟩, []) ∧
     createStatus .invalidCode = 400) ∧
    (create_link (fun c => c == "badword") (fun _ => "GGGGGG") 5 1
        ⟨"http://a", some "taken", none⟩
        ⟨[⟨0, 2, "taken", "http://z", false, none, 0, 0⟩], [], 1⟩ false []
        = (.codeConflict,
           ⟨[⟨0, 2, "taken", "http://z", false, none, 0, 0⟩], [], 1⟩, []) ∧
     createStatus .codeConflict = 409) ∧
    (create_link (fun c => c == "badword") (fun _ => "GGGGGG") 5 1
        ⟨"http://a", some "mine1", none⟩ ⟨[], [], 0⟩ false []
        = (.created (mkNewLink 1 "mine1" ⟨"http://a", some "mine1", none⟩ 5 0),
           insertLink ⟨[], [], 0⟩
             (mkNewLink 1 "mine1" ⟨"http://a", some "mine1", none⟩ 5 0),
           cacheSet [] (linkKey "mine1") (.link ⟨0, "http://a", none⟩)) ∧
     (mkNewLink 1 "mine1" ⟨"http://a", some "mine1", none⟩ 5 0).short_code = "mine1" ∧
     (insertLink ⟨[], [], 0⟩
        (mkNewLink 1 "mine1" ⟨"http://a", some "mine1", none⟩ 5 0)).links
        = [] ++ [mkNewLink 1 "mine1" ⟨"http://a", some "mine1", none⟩ 5 0]) := by
  exact claim6_custom_path (fun c => c == "badword") (fun _ => "GGGGGG")
    5 5 5 1 1 1 "http://a" "http://a" "http://a" none none none
    "ab!" "taken" "mine1" ⟨[], [], 0⟩
    ⟨[⟨0, 2, "taken", "http://z", false, none, 0, 0⟩], [], 1⟩ ⟨[], [], 0⟩
    [] [] [] (by decide) (by decide) (by decide) (by decide) (by decide)
    (by decide) (by decide) (by decide)

/-! ## C5 — create / resolve round trip -/

theorem findByCode_append_last {links : List Link} {code : String}
    (h : findByCode links code = none) (l : Link) (hl : l.short_code = code) :
    findByCode (links ++ [l]) code = some l := by
  induction links with
  | nil =>
    simp [findByCode, List.find?, hl]
  | cons a t ih =>
    unfold findByCode at h ⊢
    rw [List.cons_append]
    cases hb : (a.short_code == code) with
    | true =>
      rw [List.find?] at h
      rw [hb] at h
      exact absurd h (by simp)
    | false =>
      rw [List.find?] at h
      rw [hb] at h
      rw [List.find?, hb]
      exact ih h

/-- C5 counterexample: the claim quantifies over *every* code created in
*every* store state, but a link may be created with `expires_at` already
in the past (creation does not validate expiry); resolving such a code
immediately after creation yields the expired outcome, not the original
URL. -/
theorem claim5_counterexample :
    create_link (fun _ => false) (fun _ => "abcdef") 10 1
        ⟨"http://a", none, some 5⟩ ⟨[], [], 0⟩ false []
      = (.created ⟨0, 1, "abcdef", "http://a", false, some 5, 10, 10⟩,
         ⟨[⟨0, 1, "abcdef", "http://a", false, some 5, 10, 10⟩], [], 1⟩,
         cacheSet [] (linkKey "abcdef") (.link ⟨0, "http://a", some 5⟩)) ∧
    (redirect_to_url false 10 "abcdef"
        ⟨[⟨0, 1, "abcdef", "http://a", false, some 5, 10, 10⟩], [], 1⟩
        (cacheSet [] (linkKey "abcdef") (.link ⟨0, "http://a", some 5⟩))).1
      = .expired ∧
    (RedirectResult.expired ≠ .redirect "http://a") := by
  refine ⟨by decide, by decide, by decide⟩

/-- C5 amended: for every store state and every code created in it
*whose expiry is absent or not strictly before the resolution time*,
resolving the code returns its original URL: immediately after creation
the cache-hit path serves it, and after the cache entry is removed the
store-fallback path returns the same URL and repopulates the cache with
the id / url / expiry payload. -/
theorem claim5_amended_roundtrip (flagged : String → Bool)
    (gen : Nat → String) (nowc t uid : Nat) (d : LinkCreateReq) (st : Store)
    (cache : Cache) (l : Link) (st' : Store) (c' : Cache)
    (hc : create_link flagged gen nowc uid d st false cache = (.created l, st', c'))
    (hexp : ∀ e, l.expires_at = some e → ¬e < t) :
    redirect_to_url false t l.short_code st' c'
      = (.redirect l.original_url, c', [l.id]) ∧
    redirect_to_url false t l.short_code st'
        (cacheDelete c' (linkKey l.short_code))
      = (.redirect l.original_url,
         cacheSet (cacheDelete c' (linkKey l.short_code)) (linkKey l.short_code)
           (.link ⟨l.id, l.original_url, l.expires_at⟩),
         [l.id]) ∧
    cacheGet (redirect_to_url false t l.short_code st'
        (cacheDelete c' (linkKey l.short_code))).2.1 (linkKey l.short_code)
      = some ⟨.link ⟨l.id, l.original_url, l.expires_at⟩, none⟩ := by
  obtain ⟨hfree, hmk, hst, hcache⟩ :=
    create_created_inv flagged gen nowc uid d st cache l st' c' hc
  have hself : cacheGet c' (linkKey l.short_code)
      = some ⟨.link ⟨l.id, l.original_url, l.expires_at⟩, none⟩ := by
    rw [hcache]
    exact cacheGet_set_self _ _ _
  have hmiss : cacheGet (cacheDelete c' (linkKey l.short_code))
      (linkKey l.short_code) = none := cacheGet_delete_self _ _
  have hfind : findByCode st'.links l.short_code = some l := by
    rw [hst]
    exact findByCode_append_last hfree l rfl
  have hstore : redirect_to_url false t l.short_code st'
      (cacheDelete c' (linkKey l.short_code))
      = (.redirect l.original_url,
         cacheSet (cacheDelete c' (linkKey l.short_code)) (linkKey l.short_code)
           (.link ⟨l.id, l.original_url, l.expires_at⟩),
         [l.id]) := by
    cases hE : l.expires_at with
    | none => simp [redirect_to_url, hmiss, hfind, hE]
    | some e => simp [redirect_to_url, hmiss, hfind, hE, hexp e hE]
  refine ⟨?_, hstore, ?_⟩
  · cases hE : l.expires_at with
    | none => simp [redirect_to_url, hself, hE]
    | some e => simp [redirect_to_url, hself, hE, hexp e hE]
  · rw [hstore]
    exact cacheGet_set_self _ _ _

theorem claim5_amended_roundtrip_witness :
    redirect_to_url false 10 "abcdef"
        ⟨[⟨0, 1, "abcdef", "http://a", false, none, 10, 10⟩], [], 1⟩
        (cacheSet [] (linkKey "abcdef") (.link ⟨0, "http://a", none⟩))
      = (.redirect "http://a",
         cacheSet [] (linkKey "abcdef") (.link ⟨0, "http://a", none⟩), [0]) ∧
    redirect_to_url false 10 "abcdef"
        ⟨[⟨0, 1, "abcdef", "http://a", false, none, 10, 10⟩], [], 1⟩
        (cacheDelete (cacheSet [] (linkKey "abcdef") (.link ⟨0, "http://a", none⟩))
          (linkKey "abcdef"))
      = (.redirect "http://a",
         cacheSet (cacheDelete
             (cacheSet [] (linkKey "abcdef") (.link ⟨0, "http://a", none⟩))
             (linkKey "abcdef")) (linkKey "abcdef")
           (.link ⟨0, "http://a", none⟩),
         [0]) ∧
    cacheGet (redirect_to_url false 10 "abcdef"
        ⟨[⟨0, 1, "abcdef", "http://a", false, none, 10, 10⟩], [], 1⟩
        (cacheDelete (cacheSet [] (linkKey "abcdef") (.link ⟨0, "http://a", none⟩))
          (linkKey "abcdef"))).2.1 (linkKey "abcdef")
      = some ⟨.link ⟨0, "http://a", none⟩, none⟩ := by
  exact claim5_amended_roundtrip (fun _ => false) (fun _ => "abcdef") 10 10 1
    ⟨"http://a", none, none⟩ ⟨[], [], 0⟩ []
    ⟨0, 1, "abcdef", "http://a", false, none, 10, 10⟩
    ⟨[⟨0, 1, "abcdef", "http://a", false, none, 10, 10⟩], [], 1⟩
    (cacheSet [] (linkKey "abcdef") (.link ⟨0, "http://a", none⟩))
    (by decide) (by intro e he; cases he)

/-! ## C8 — click statistics -/

theorem mem_dedupAux (l : List String) :
    ∀ seen x, x ∈ dedupAux l seen → x ∈ l := by
  induction l with
  | nil => intro seen x h; simp [dedupAux] at h
  | cons a t ih =>
    intro seen x h
    unfold dedupAux at h
    by_cases hc : seen.contains a = true
    · rw [if_pos hc] at h
      exact List.mem_cons_of_mem a (ih seen x h)
    · rw [if_neg hc] at h
      rcases List.mem_cons.1 h with h' | h'
      · exact h' ▸ List.mem_cons_self a t
      · exact List.mem_cons_of_mem a (ih (a :: seen) x h')

theorem groupReferrers_mem (cs : List Click) (rc : RefCount)
    (h : rc ∈ groupReferrers cs) :
    rc.count
      = (cs.filterMap (fun c => c.referrer)).countP (fun x => x == rc.referrer) ∧
    ∃ c ∈ cs, c.referrer = some rc.referrer := by
  simp only [groupReferrers] at h
  obtain ⟨r, hr, hrc⟩ := List.mem_map.1 h
  subst hrc
  refine ⟨rfl, ?_⟩
  have hrefs : r ∈ cs.filterMap (fun c => c.referrer) :=
    mem_dedupAux _ _ _ hr
  exact List.mem_filterMap.1 hrefs

theorem ownerClicks_pred (st : Store) (uid : Nat) (c : Click) :
    ((ownerLinkIds st uid).contains c.link_id)
      = st.links.any (fun l => l.id == c.link_id && l.user_id == uid) := by
  rw [Bool.eq_iff_iff]
  simp only [ownerLinkIds, List.contains_eq_any_beq, List.any_eq_true,
    List.mem_map, List.mem_filter, beq_iff_eq, Bool.and_eq_true]
  constructor
  · rintro ⟨x, ⟨l, ⟨hl, hu⟩, hid⟩, hx⟩
    exact ⟨l, hl, hid.trans hx.symm, hu⟩
  · rintro ⟨l, hl, hid, hu⟩
    exact ⟨l.id, ⟨l, ⟨hl, hu⟩, rfl⟩, hid.symm⟩

theorem ownerClicks_eq_filter (st : Store) (uid : Nat) :
    ownerClicks st uid
      = st.clicks.filter
          (fun c => st.links.any (fun l => l.id == c.link_id && l.user_id == uid)) := by
  unfold ownerClicks
  apply congrArg (fun p => List.filter p st.clicks)
  funext c
  exact ownerClicks_pred st uid c

/-- C8 counterexample: two referrers with equal counts come back in the
store's group order, not ordered by referrer value — the query has no
secondary sort key, so the claimed deterministic tie-break by referrer
value does not hold (here the code returns "bb" before "aa", while the
claimed ordering demands "aa" before "bb"). -/
theorem claim8_counterexample :
    (get_click_stats 100000 1
        ⟨[⟨1, 1, "abc", "http://u", false, none, 0, 0⟩],
         [⟨1, 1, 50, some "bb", none, none⟩, ⟨2, 1, 60, some "aa", none, none⟩],
         2⟩ false []).1
      = .ok ⟨2, 0, 2, 2, [⟨"bb", 1⟩, ⟨"aa", 1⟩]⟩ ∧
    topReferrersSpec (ownerClicks
        ⟨[⟨1, 1, "abc", "http://u", false, none, 0, 0⟩],
         [⟨1, 1, 50, some "bb", none, none⟩, ⟨2, 1, 60, some "aa", none, none⟩],
         2⟩ 1)
      = [⟨"aa", 1⟩, ⟨"bb", 1⟩] ∧
    ([⟨"bb", 1⟩, ⟨"aa", 1⟩] : List RefCount) ≠ [⟨"aa", 1⟩, ⟨"bb", 1⟩] := by
  refine ⟨by decide, by decide, by decide⟩

/-- C8 amended: on a stats-cache miss the handler computes the
total/today/this-week/this-month click counts of the owner's links,
partitioned by `clicked_at` at or after midnight today, 7 days and 30
days before it, and a top-5 list over non-null referrers ordered by
descending count — but with *no* tie-break on the referrer value (equal
counts stay in the store's group order) — and writes the result to the
per-owner cache key with a 300-unit freshness window. -/
theorem claim8_amended_stats (now uid : Nat) (st : Store) (cache : Cache)
    (hmiss : cacheGet cache (statsKey uid) = none) :
    get_click_stats now uid st false cache
      = (.ok (computeStats now uid st),
         cacheSetex cache (statsKey uid) 300 (.stats (computeStats now uid st))) ∧
    (computeStats now uid st).total_clicks
      = st.clicks.countP
          (fun c => st.links.any (fun l => l.id == c.link_id && l.user_id == uid)) ∧
    (computeStats now uid st).clicks_today
      = st.clicks.countP
          (fun c => st.links.any (fun l => l.id == c.link_id && l.user_id == uid)
            && decide (todayStart now ≤ c.clicked_at)) ∧
    (computeStats now uid st).clicks_this_week
      = st.clicks.countP
          (fun c => st.links.any (fun l => l.id == c.link_id && l.user_id == uid)
            && decide (weekStart now ≤ c.clicked_at)) ∧
    (computeStats now uid st).clicks_this_month
      = st.clicks.countP
          (fun c => st.links.any (fun l => l.id == c.link_id && l.user_id == uid)
            && decide (monthStart now ≤ c.clicked_at)) ∧
    List.Pairwise countGE (computeStats now uid st).top_referrers ∧
    (computeStats now uid st).top_referrers.length ≤ 5 ∧
    (∀ rc ∈ (computeStats now uid st).top_referrers,
      rc.count = ((ownerClicks st uid).filterMap
          (fun c => c.referrer)).countP (fun x => x == rc.referrer) ∧
      ∃ c ∈ ownerClicks st uid, c.referrer = some rc.referrer) ∧
    cacheGet (get_click_stats now uid st false cache).2 (statsKey uid)
      = some ⟨.stats (computeStats now uid st), some 300⟩ := by
  have hrun : get_click_stats now uid st false cache
      = (.ok (computeStats now uid st),
         cacheSetex cache (statsKey uid) 300 (.stats (computeStats now uid st))) := by
    unfold get_click_stats
    rw [hmiss]
    rfl
  have hcount : ∀ q : Click → Bool,
      ((ownerClicks st uid).filter q).length
        = st.clicks.countP
            (fun c => st.links.any (fun l => l.id == c.link_id && l.user_id == uid)
              && q c) := by
    intro q
    rw [ownerClicks_eq_filter, List.filter_filter, ← List.countP_eq_length_filter]
    exact congrArg (fun p => List.countP p st.clicks)
      (funext fun a => Bool.and_comm _ _)
  have hsorted : List.Pairwise countGE
      (List.insertionSort countGE (groupReferrers (ownerClicks st uid))) :=
    List.sorted_insertionSort countGE (groupReferrers (ownerClicks st uid))
  refine ⟨hrun, ?_, hcount _, hcount _, hcount _, ?_, ?_, ?_, ?_⟩
  · show (ownerClicks st uid).length = _
    rw [ownerClicks_eq_filter, ← List.countP_eq_length_filter]
  · exact hsorted.sublist (List.take_sublist 5 _)
  · exact List.length_take_le 5 _
  · intro rc hrc
    have hmem : rc ∈ groupReferrers (ownerClicks st uid) :=
      (List.perm_insertionSort countGE _).mem_iff.1
        ((List.take_sublist 5 _).subset hrc)
    exact groupReferrers_mem _ rc hmem
  · rw [hrun]
    exact cacheGet_setex_self _ _ _ _

theorem claim8_amended_stats_witness :
    get_click_stats 100000 1
        ⟨[⟨1, 1, "abc", "http://u", false, none, 0, 0⟩],
         [⟨1, 1, 50, some "bb", none, none⟩, ⟨2, 1, 60, some "aa", none, none⟩],
         2⟩ false []
      = (.ok (computeStats 100000 1
           ⟨[⟨1, 1, "abc", "http://u", false, none, 0, 0⟩],
            [⟨1, 1, 50, some "bb", none, none⟩, ⟨2, 1, 60, some "aa", none, none⟩],
            2⟩),
         cacheSetex [] (statsKey 1) 300 (.stats (computeStats 100000 1
           ⟨[⟨1, 1, "abc", "http://u", false, none, 0, 0⟩],
            [⟨1, 1, 50, some "bb", none, none⟩, ⟨2, 1, 60, some "aa", none, none⟩],
            2⟩))) ∧
    List.Pairwise countGE (computeStats 100000 1
        ⟨[⟨1, 1, "abc", "http://u", false, none, 0, 0⟩],
         [⟨1, 1, 50, some "bb", none, none⟩, ⟨2, 1, 60, some "aa", none, none⟩],
         2⟩).top_referrers ∧
    cacheGet (get_click_stats 100000 1
        ⟨[⟨1, 1, "abc", "http://u", false, none, 0, 0⟩],
         [⟨1, 1, 50, some "bb", none, none⟩, ⟨2, 1, 60, some "aa", none, none⟩],
         2⟩ false []).2 (statsKey 1)
      = some ⟨.stats (computeStats 100000 1
           ⟨[⟨1, 1, "abc", "http://u", false, none, 0, 0⟩],
            [⟨1, 1, 50, some "bb", none, none⟩, ⟨2, 1, 60, some "aa", none, none⟩],
            2⟩), some 300⟩ := by
  have h := claim8_amended_stats 100000 1
    ⟨[⟨1, 1, "abc", "http://u", false, none, 0, 0⟩],
     [⟨1, 1, 50, some "bb", none, none⟩, ⟨2, 1, 60, some "aa", none, none⟩],
     2⟩ [] (by decide)
  exact ⟨h.1, h.2.2.2.2.2.1, h.2.2.2.2.2.2.2.2⟩

end UrlShortener
